import Mathlib

/-!
Shallow embedding of the stock-control backend (FastAPI/SQLAlchemy) core:
the append-only stock-movement ledger (`src/routers/inventory.py`), the
product write paths (`src/routers/product.py`, `src/backend/models.py`),
the subscription lifecycle (`src/routers/auth.py`, `src/routers/superadmin.py`)
and the onboarding tracker (`src/backend/onboarding_utils.py`,
`src/routers/onboarding.py`).

Conventions of the embedding:
* the database is an explicit record of lists of rows; every endpoint is a
  pure function `DB → args → result × DB` returning the response and the
  committed database (an HTTP error or an uncaught Python/driver exception
  leaves the database unchanged, since nothing was committed);
* SQL `NULL`-able columns are `Option`; a SQL comparison `col = NULL`
  matches nothing, which the embedding renders as `some x == none = false`;
* Python `datetime` values are integer timestamps (seconds); a `timedelta`
  of 30 days is the constant `thirtyDays`;
* monetary values (`Float` in the source) are modelled as `Int`: every
  claim about them only uses order comparisons on exactly representable
  values, where float and integer ordering agree.
-/

/-- A row of `stock_movements` (`models.StockMovement`). `business_id`,
`branch_id`, `product_id`, `quantity`, `created_by` are NOT NULL. -/
structure StockMovement where
  business_id : Nat
  branch_id : Nat
  product_id : Nat
  movement_type : String
  quantity : Int
  staff_id : Option Nat
  from_branch_id : Option Nat
  notes : Option String
  created_by : Nat
deriving DecidableEq

/-- A row of `products` (`models.Product`): note the stored `quantity`
column (models.py line 21) alongside the ledger. -/
structure Product where
  id : Nat
  name : String
  business_id : Nat
  min_stock : Int
  price : Option Int
  buying_price : Option Int
  quantity : Int
deriving DecidableEq

/-- A row of `branches` (`models.Branch`). -/
structure Branch where
  id : Nat
  business_id : Nat
  is_active : Bool
deriving DecidableEq

/-- A row of `staff` (`models.Staff`); `business_id` and `branch_id` NOT NULL. -/
structure Staff where
  id : Nat
  business_id : Nat
  branch_id : Nat
  full_name : String
  is_active : Bool
deriving DecidableEq

/-- A row of `users` (`models.User`); `business_id` and `branch_id` nullable. -/
structure User where
  id : Nat
  business_id : Option Nat
  username : String
  password_hash : String
  role : String
  is_active : Bool
  last_login : Option Int
  branch_id : Option Nat
deriving DecidableEq

/-- A row of `subscriptions` (`models.Subscription`). -/
structure Subscription where
  business_id : Option Nat
  plan_name : String
  start_date : Int
  end_date : Option Int
  status : String
  is_active : Bool
  updated_at : Int
deriving DecidableEq

/-- A row of `orders` (`models.Order`); only existence per business matters here. -/
structure Order where
  id : Nat
  business_id : Nat
deriving DecidableEq

/-- A row of `onboarding_events` (`models.OnboardingEvent`), unique on
`(business_id, event)`. -/
structure OnboardingEvent where
  business_id : Nat
  event : String
deriving DecidableEq

/-- The relational store: one list of rows per table, in insertion order. -/
structure DB where
  users : List User
  products : List Product
  branches : List Branch
  staffs : List Staff
  movements : List StockMovement
  orders : List Order
  events : List OnboardingEvent
  subscriptions : List Subscription
deriving DecidableEq

/-- Outcome of a request: an explicit `HTTPException(status, detail)`, or an
uncaught driver/Python exception (which aborts the transaction uncommitted). -/
inductive ApiError where
  | http (status : Nat) (detail : String)
  | dbIntegrity
  | pyTypeError
  | pyValueError
deriving DecidableEq

/-- `func.coalesce(func.sum(StockMovement.quantity), 0)` over the rows kept
by a filter: the quantity sum of the matching rows, `0` when none match. -/
def sumQty (l : List StockMovement) (p : StockMovement → Bool) : Int :=
  ((l.filter p).map (fun m => m.quantity)).sum

/-- The movement filter built by `get_product_stock` and by the balance
check in `assign_stock` (inventory.py lines 30-40 and 347-357): product and
business always, plus the actor's own branch unless the role is `admin`. -/
def userStockFilter (u : User) (product_id : Nat) (m : StockMovement) : Bool :=
  (m.product_id == product_id && some m.business_id == u.business_id) &&
  (u.role == "admin" || some m.branch_id == u.branch_id)

/-- `GET /inventory/product_stock/{product_id}` (inventory.py lines 24-44). -/
def get_product_stock (db : DB) (u : User) (product_id : Nat) : Int :=
  sumQty db.movements (userStockFilter u product_id)

/-- Ledger balance of one `(business, branch, product)` tuple: the sum of
quantities over all movements of that tuple (the spec's `currentStock`). -/
def tupleBalance (db : DB) (biz branch product_id : Nat) : Int :=
  sumQty db.movements
    (fun m => m.business_id == biz && m.branch_id == branch && m.product_id == product_id)

/-- Business-wide ledger balance of a product: the sum of quantities over
all movements of the business for that product, across every branch. -/
def bizBalance (db : DB) (biz product_id : Nat) : Int :=
  sumQty db.movements (fun m => m.business_id == biz && m.product_id == product_id)

/-- `POST /inventory/assign_stock` (inventory.py lines 308-381): validates
role, positive quantity, staff (branch-filtered for non-admins), product,
and the balance computed with `userStockFilter`; on success appends one
`ISSUE` movement with quantity `-quantity` at the staff's branch. -/
def assign_stock (db : DB) (u : User) (product_id staff_id : Nat)
    (quantity : Int) (notes : Option String) : Except ApiError Unit × DB :=
  if u.role == "admin" || u.role == "storekeeper" then
    if quantity ≤ 0 then (.error (.http 400 "Quantity must be greater than zero"), db)
    else
      match db.staffs.find? (fun s =>
          (s.id == staff_id && some s.business_id == u.business_id) &&
          (u.role == "admin" || some s.branch_id == u.branch_id)) with
      | none => (.error (.http 400 "Invalid staff"), db)
      | some staff =>
        match db.products.find? (fun p =>
            p.id == product_id && some p.business_id == u.business_id) with
        | none => (.error (.http 400 "Invalid product"), db)
        | some _ =>
          if sumQty db.movements (userStockFilter u product_id) < quantity then
            (.error (.http 400 "Not enough stock"), db)
          else
            match u.business_id with
            | none => (.error .dbIntegrity, db)
            | some biz =>
              (.ok (), { db with movements := db.movements ++
                [{ business_id := biz, branch_id := staff.branch_id,
                   product_id := product_id, movement_type := "ISSUE",
                   quantity := -quantity, staff_id := some staff.id,
                   from_branch_id := none, notes := notes, created_by := u.id }] })
  else (.error (.http 403 "Not authorized"), db)

/-- The branch-resolution block of `restock_product` (inventory.py lines
413-418): a manager always restocks their own branch (a NULL branch only
fails later, at commit, on the NOT NULL column); an admin must supply a
truthy `branch_id` (`if not branch_id:` also rejects `0`) which is used
as given. -/
def resolveRestockBranch (u : User) (branch_id : Option Nat) : Except ApiError Nat :=
  if u.role == "manager" then
    match u.branch_id with
    | none => .error .dbIntegrity
    | some b => .ok b
  else
    match branch_id with
    | none => .error (.http 400 "Branch is required")
    | some 0 => .error (.http 400 "Branch is required")
    | some b => .ok b

/-- `POST /inventory/restock` (inventory.py lines 387-436): validates role,
positive quantity and product; a manager's target branch is their own
(NULL would only fail at commit on the NOT NULL column), an admin must
supply a truthy `branch_id` (`if not branch_id`, so `0` is also rejected) —
which is never checked against the admin's business; appends one `IN`
movement. -/
def restock_product (db : DB) (u : User) (product_id : Nat) (quantity : Int)
    (branch_id : Option Nat) (supplier invoice_number notes : Option String) :
    Except ApiError Unit × DB :=
  if u.role == "admin" || u.role == "manager" then
    if quantity ≤ 0 then (.error (.http 400 "Quantity must be greater than zero"), db)
    else
      match db.products.find? (fun p =>
          p.id == product_id && some p.business_id == u.business_id) with
      | none => (.error (.http 400 "Invalid product"), db)
      | some _ =>
        match resolveRestockBranch u branch_id with
        | .error e => (.error e, db)
        | .ok b =>
          match u.business_id with
          | none => (.error .dbIntegrity, db)
          | some biz =>
            (.ok (), { db with movements := db.movements ++
              [{ business_id := biz, branch_id := b, product_id := product_id,
                 movement_type := "IN", quantity := quantity, staff_id := none,
                 from_branch_id := none,
                 notes := some ("Supplier: " ++ supplier.getD "" ++ " | Invoice: "
                   ++ invoice_number.getD "" ++ " | " ++ notes.getD ""),
                 created_by := u.id }] })
  else (.error (.http 403 "Not authorized"), db)

/-- `models.Product.validate_price` (models.py lines 24-28), the
`@validates("price")` hook: fired on every assignment to `price`; rejects
with `ValueError` when `buying_price` is already set and the new value is
below it. Comparing Python `None` with a number raises `TypeError`. -/
def validate_price (buying : Option Int) (value : Option Int) :
    Except ApiError (Option Int) :=
  match buying with
  | none => .ok value
  | some b =>
    match value with
    | none => .error .pyTypeError
    | some v => if v < b then .error .pyValueError else .ok value

/-- Fresh autoincrement id for `products`. -/
def freshProductId (db : DB) : Nat :=
  (db.products.map (fun p => p.id)).foldl max 0 + 1

/-- `record_onboarding_event` (onboarding_utils.py lines 4-10): insert an
`OnboardingEvent` row and commit; a duplicate-key `IntegrityError` from the
unique constraint on `(business_id, event)` is rolled back and swallowed. -/
def record_onboarding_event (db : DB) (business_id : Nat) (event : String) : DB :=
  if db.events.any (fun e => e.business_id == business_id && e.event == event) then db
  else { db with events := db.events ++ [{ business_id := business_id, event := event }] }

/-- `POST /products/add_product` (product.py lines 56-95). The model
constructor `models.Product(name=…, price=…, buying_price=…, quantity=…,
business_id=…)` assigns the keyword arguments in order, so the `price`
validator runs while `buying_price` is still `None` and never rejects.
A duplicate `(name, business_id)` raises `IntegrityError` at commit, which
the route's `except` turns into HTTP 400 with nothing written. On success
the `add_product` onboarding event is recorded. -/
def add_product (db : DB) (u : User) (name : String)
    (price buying_price : Int) (quantity : Int) : Except ApiError Nat × DB :=
  if u.role == "admin" || u.role == "manager" then
    match validate_price none (some price) with
    | .error e => (.error e, db)
    | .ok _ =>
      match u.business_id with
      | none => (.error .dbIntegrity, db)
      | some biz =>
        if db.products.any (fun p => p.name == name && p.business_id == biz) then
          (.error .dbIntegrity, db)
        else
          let pid := freshProductId db
          let db1 := { db with products := db.products ++
            [{ id := pid, name := name, business_id := biz, min_stock := 5,
               price := some price, buying_price := some buying_price,
               quantity := quantity }] }
          (.ok pid, record_onboarding_event db1 biz "add_product")
  else (.error (.http 403 "Access denied"), db)

/-- The JSON body of `PUT /products/update_stock/{product_id}`: `none`
means the key is absent from the payload. -/
structure UpdateData where
  quantity : Option Int
  price : Option Int
  buying_price : Option Int
deriving DecidableEq

/-- `PUT /products/update_stock/{product_id}` (product.py lines 115-141):
assigns `quantity`, then `price` (firing the validator against the OLD
`buying_price`, since `buying_price` is assigned afterwards), then
`buying_price`, and commits. A validator exception aborts the request with
nothing committed. -/
def update_stock (db : DB) (u : User) (product_id : Nat) (data : UpdateData) :
    Except ApiError String × DB :=
  if u.role == "admin" || u.role == "manager" then
    match db.products.find? (fun p =>
        p.id == product_id && some p.business_id == u.business_id) with
    | none => (.error (.http 404 "Product not found"), db)
    | some p =>
      let newQuantity := data.quantity.getD p.quantity
      let newPrice := match data.price with
        | none => p.price
        | some v => some v
      match validate_price p.buying_price newPrice with
      | .error e => (.error e, db)
      | .ok _ =>
        let newBuying := match data.buying_price with
          | none => p.buying_price
          | some v => some v
        let newProducts := db.products.map (fun q =>
          if q.id == p.id then
            { q with
                quantity := newQuantity
                price := newPrice
                buying_price := newBuying }
          else q)
        (.ok "Product updated successfully", { db with products := newProducts })
  else (.error (.http 403 "Access denied"), db)

/-- Update the first row of a list satisfying `p` (the row returned by a
SQLAlchemy `.first()` and mutated in place). -/
def updateFirst (l : List α) (p : α → Bool) (f : α → α) : List α :=
  match l with
  | [] => []
  | x :: xs => if p x then f x :: xs else x :: updateFirst xs p f

/-- Outcome of `POST /auth/login_form`: the redirect on success, or which
failure branch was taken (the route's outer `except` only rewraps the
status code of the raised `HTTPException`, it does not change the branch). -/
inductive LoginResult where
  | okRedirect (url : String)
  | badCredentials
  | missingSubscription
  | suspended
  | trialExpired
  | subscriptionExpired
  | crashed
deriving DecidableEq

/-- `timedelta(days=30)` in seconds. -/
def thirtyDays : Int := 30 * 86400

/-- The subscription row matcher
`Subscription.business_id == user.business_id` under SQL `NULL` semantics:
a user without a business matches no subscription. -/
def subForUser (u : User) (s : Subscription) : Bool :=
  match u.business_id with
  | none => false
  | some b => s.business_id == some b

/-- The lazy expiry write performed at login (`subscription.status =
"expired"; subscription.is_active = False; db.commit()`, with the
`onupdate` hook refreshing `updated_at`). -/
def expireFirst (subs : List Subscription) (p : Subscription → Bool)
    (now : Int) : List Subscription :=
  updateFirst subs p
    (fun s => { s with status := "expired", is_active := false, updated_at := now })

/-- Mark a user row logged in (`user.is_active = 1; user.last_login = now`). -/
def setLoggedIn (db : DB) (username : String) (now : Int) : DB :=
  let users := updateFirst db.users (fun x => x.username == username)
    (fun x => { x with is_active := true, last_login := some now })
  { db with users := users }

/-- `POST /auth/login_form` (auth.py lines 225-316), with the external
bcrypt check `pwd_context.verify` abstracted as the parameter `verify`.
Order of checks after credentials: superadmin bypass; subscription must
exist; `suspended` fails; `trial` with `end_date < now` is persisted as
`expired`/inactive and fails (a `None` end date would raise `TypeError`);
likewise `active`; otherwise the login succeeds. -/
def login_user (verify : String → String → Bool) (db : DB)
    (username password : String) (now : Int) : LoginResult × DB :=
  match db.users.find? (fun x => x.username == username) with
  | none => (.badCredentials, db)
  | some u =>
    if verify password u.password_hash then
      if u.role == "superadmin" then
        (.okRedirect "/superadmin/admin_panel", setLoggedIn db username now)
      else
        match db.subscriptions.find? (subForUser u) with
        | none => (.missingSubscription, db)
        | some sub =>
          if sub.status == "suspended" then (.suspended, db)
          else if sub.status == "trial" then
            match sub.end_date with
            | none => (.crashed, db)
            | some e =>
              if e < now then
                (.trialExpired,
                 { db with subscriptions := expireFirst db.subscriptions (subForUser u) now })
              else (.okRedirect "/inventory/dashboard", setLoggedIn db username now)
          else if sub.status == "active" then
            match sub.end_date with
            | none => (.crashed, db)
            | some e =>
              if e < now then
                (.subscriptionExpired,
                 { db with subscriptions := expireFirst db.subscriptions (subForUser u) now })
              else (.okRedirect "/inventory/dashboard", setLoggedIn db username now)
          else (.okRedirect "/inventory/dashboard", setLoggedIn db username now)
    else (.badCredentials, db)

/-- The subscription row matcher used by the superadmin lifecycle routes:
`Subscription.business_id == business_id` for an integer path parameter. -/
def subForBiz (business_id : Nat) (s : Subscription) : Bool :=
  s.business_id == some business_id

/-- `POST /superadmin/activate/{business_id}` (superadmin.py lines 220-242):
superadmin only; sets `status="active"`, `is_active=True`,
`start_date=now`, `end_date=now+30 days`, `updated_at=now`. -/
def activate_subscription (db : DB) (actor : User) (business_id : Nat) (now : Int) :
    Except ApiError String × DB :=
  if actor.role == "superadmin" then
    match db.subscriptions.find? (subForBiz business_id) with
    | none => (.error (.http 404 "Subscription not found"), db)
    | some _ =>
      let subs := updateFirst db.subscriptions (subForBiz business_id) (fun s =>
        { s with
            status := "active"
            is_active := true
            start_date := now
            end_date := some (now + thirtyDays)
            updated_at := now })
      (.ok "Subscription activated for 30 days", { db with subscriptions := subs })
  else (.error (.http 403 "Only superadmin allowed"), db)

/-- `POST /superadmin/renew/{business_id}` (superadmin.py lines 248-269):
superadmin only; sets `status="active"`, `is_active=True`, extends the
existing `end_date` by 30 days (`end_date += timedelta(days=30)`; a `None`
end date raises `TypeError`, nothing committed) and does not touch
`start_date`. -/
def renew_subscription (db : DB) (actor : User) (business_id : Nat) (now : Int) :
    Except ApiError String × DB :=
  if actor.role == "superadmin" then
    match db.subscriptions.find? (subForBiz business_id) with
    | none => (.error (.http 404 "Subscription not found"), db)
    | some sub =>
      match sub.end_date with
      | none => (.error .pyTypeError, db)
      | some e =>
        let subs := updateFirst db.subscriptions (subForBiz business_id) (fun s =>
          { s with
              status := "active"
              is_active := true
              end_date := some (e + thirtyDays)
              updated_at := now })
        (.ok "Subscription renewed +30 days", { db with subscriptions := subs })
  else (.error (.http 403 "Only superadmin allowed"), db)

/-- `POST /superadmin/reactivate/{business_id}` (superadmin.py lines
301-321): superadmin only; sets `status="active"`, `is_active=True`,
`updated_at=now`, leaving `start_date` and `end_date` unchanged. -/
def reactivate_account (db : DB) (actor : User) (business_id : Nat) (now : Int) :
    Except ApiError String × DB :=
  if actor.role == "superadmin" then
    match db.subscriptions.find? (subForBiz business_id) with
    | none => (.error (.http 404 "Subscription not found"), db)
    | some _ =>
      let subs := updateFirst db.subscriptions (subForBiz business_id) (fun s =>
        { s with status := "active", is_active := true, updated_at := now })
      (.ok "Business reactivated", { db with subscriptions := subs })
  else (.error (.http 403 "Only superadmin allowed"), db)

/-- The response of `GET /onboarding/status`. -/
structure OnbStatus where
  add_product : Bool
  sell_product : Bool
  view_report : Bool
  install_app : Bool
  progress : Nat
  show_activation_modal : Bool
  next_action : Option String
deriving DecidableEq

/-- Existence of an `OnboardingEvent` row for `(business_id, event)`. -/
def hasEvent (db : DB) (business_id : Nat) (event : String) : Bool :=
  db.events.any (fun e => e.business_id == business_id && e.event == event)

/-- The four onboarding step flags (onboarding.py lines 51-80):
`(add_product, sell_product, view_report, install_app)`, with
`view_report` falling back to `sell_product`. -/
def onbSteps (db : DB) (business_id : Nat) : Bool × Bool × Bool × Bool :=
  let has_product := db.products.any (fun p => p.business_id == business_id)
  let has_sale := db.orders.any (fun o => o.business_id == business_id)
  let viewed_report := hasEvent db business_id "view_report"
  let installed_app := hasEvent db business_id "install_app"
  (has_product, has_sale, viewed_report || has_sale, installed_app)

/-- Number of completed steps (onboarding.py line 82). -/
def onbCompleted (s : Bool × Bool × Bool × Bool) : Nat :=
  (if s.1 then 1 else 0) + (if s.2.1 then 1 else 0) +
  (if s.2.2.1 then 1 else 0) + (if s.2.2.2 then 1 else 0)

/-- `next_action_from_steps` (onboarding.py lines 89-98): the first unmet
step in the fixed order, or `none` when all are met. -/
def next_action_from_steps (s : Bool × Bool × Bool × Bool) : Option String :=
  if !s.1 then some "add_product"
  else if !s.2.1 then some "sell_product"
  else if !s.2.2.1 then some "view_report"
  else if !s.2.2.2 then some "install_app"
  else none

/-- `GET /onboarding/status` (onboarding.py lines 38-121): recomputes the
step flags, `progress = int(completed / 4 * 100)` (exact for 0..4) and the
next action on every call; when there is a next action with progress below
100 and the stage sentinel `activation_modal_shown:<stage>` is not yet
recorded, it answers `show_activation_modal = true` and durably records
the sentinel before returning. -/
def onboarding_status (db : DB) (business_id : Nat) : OnbStatus × DB :=
  let s := onbSteps db business_id
  let progress := onbCompleted s * 100 / 4
  let next_action := next_action_from_steps s
  let base : OnbStatus :=
    { add_product := s.1, sell_product := s.2.1, view_report := s.2.2.1,
      install_app := s.2.2.2, progress := progress,
      show_activation_modal := false, next_action := next_action }
  match next_action with
  | some stage =>
    if progress < 100 then
      let stage_event := "activation_modal_shown:" ++ stage
      if hasEvent db business_id stage_event then (base, db)
      else ({ base with show_activation_modal := true },
            record_onboarding_event db business_id stage_event)
    else (base, db)
  | none => (base, db)

/-! ### Concrete fixtures used by witnesses and counterexamples -/

/-- The empty store. -/
def emptyDB : DB :=
  { users := [], products := [], branches := [], staffs := [],
    movements := [], orders := [], events := [], subscriptions := [] }

/-- An admin of business 1 (no branch, as admins have `branch_id` NULL). -/
def uAdmin1 : User :=
  { id := 10, business_id := some 1, username := "admin1", password_hash := "pw",
    role := "admin", is_active := true, last_login := none, branch_id := none }

/-- A storekeeper of business 1, branch 1. -/
def uStore1 : User :=
  { id := 11, business_id := some 1, username := "store1", password_hash := "pw",
    role := "storekeeper", is_active := true, last_login := none, branch_id := some 1 }

/-- A manager of business 1, branch 1. -/
def uMgr1 : User :=
  { id := 12, business_id := some 1, username := "mgr1", password_hash := "pw",
    role := "manager", is_active := true, last_login := none, branch_id := some 1 }

/-- The superadmin operator. -/
def saUser : User :=
  { id := 1, business_id := none, username := "root", password_hash := "pw",
    role := "superadmin", is_active := true, last_login := none, branch_id := none }

/-- Product 1 of business 1 with no prices and stored quantity 0. -/
def prod1 : Product :=
  { id := 1, name := "P", business_id := 1, min_stock := 5,
    price := none, buying_price := none, quantity := 0 }

/-- Staff member 1 of business 1 working at branch 2. -/
def staffBr2 : Staff :=
  { id := 1, business_id := 1, branch_id := 2, full_name := "Bob", is_active := true }

/-- Staff member 1 of business 1 working at branch 1. -/
def staffBr1 : Staff :=
  { id := 1, business_id := 1, branch_id := 1, full_name := "Bob", is_active := true }

/-- C1 counterexample state: all stock of product 1 (10 units, from an IN
movement) sits at branch 1 of business 1, while staff 1 works at branch 2. -/
def mvIn10 : StockMovement :=
  { business_id := 1
    branch_id := 1
    product_id := 1
    movement_type := "IN"
    quantity := 10
    staff_id := none
    from_branch_id := none
    notes := none
    created_by := 10 }

def dbC1 : DB :=
  { emptyDB with
      products := [prod1]
      branches := [⟨1, 1, true⟩, ⟨2, 1, true⟩]
      staffs := [staffBr2]
      movements := [mvIn10] }

/-- C2 scenario start state: branch 1 of business 1, product 1, staff at
branch 1, empty ledger. -/
def dbC2 : DB :=
  { emptyDB with
      products := [prod1]
      branches := [⟨1, 1, true⟩]
      staffs := [staffBr1] }

/-- C4 state: product 1 of business 1 with `price=10`, `buying_price=5`,
stored `quantity=0`, and an empty ledger. -/
def prodC4 : Product :=
  { id := 1
    name := "P"
    business_id := 1
    min_stock := 5
    price := some 10
    buying_price := some 5
    quantity := 0 }

def dbC4 : DB :=
  { emptyDB with products := [prodC4] }

/-- C5 state: product 1 belongs to business 1; branch 1 belongs to
business 1 but branch 2 belongs to business 2 (another tenant). -/
def dbC5 : DB :=
  { emptyDB with
      products := [prod1]
      branches := [⟨1, 1, true⟩, ⟨2, 2, true⟩] }

/-- A trial subscription of business 1 that ended at time 100. -/
def subTrial1 : Subscription :=
  { business_id := some 1, plan_name := "monthly", start_date := 0,
    end_date := some 100, status := "trial", is_active := true, updated_at := 0 }

/-- C7 state: the admin of business 1 plus their trial subscription. -/
def dbC7 : DB :=
  { emptyDB with users := [uAdmin1], subscriptions := [subTrial1] }

/-- C8 state: one subscription row for business 1. -/
def dbC8 : DB :=
  { emptyDB with subscriptions := [subTrial1] }

/-- Number of stored `OnboardingEvent` rows for a `(business, event)` pair. -/
def countEvents (db : DB) (business_id : Nat) (event : String) : Nat :=
  (db.events.filter (fun e => e.business_id == business_id && e.event == event)).length

/-- The database-level unique constraint `uq_onboarding_event` on
`(business_id, event)` (models.py lines 144-146), as a state invariant. -/
def eventsUnique (db : DB) : Prop :=
  ∀ business_id event, countEvents db business_id event ≤ 1

/-- `getStock` as the spec words it: "the sum of quantities of all
committed movements matching that business — restricted to the actor's own
branch when the actor's role is not admin, and summed over all branches of
the business when it is — returning 0 when no movements match". -/
def specStock (db : DB) (u : User) (product_id : Nat) : Int :=
  ((db.movements.filter (fun m =>
      some m.business_id == u.business_id && m.product_id == product_id &&
      (u.role == "admin" || some m.branch_id == u.branch_id))).map
    (fun m => m.quantity)).sum

/-- A concrete stand-in for the external `pwd_context.verify` used by
witnesses: plain equality of the supplied password with the stored value. -/
def verifyEq : String → String → Bool := fun p h => p == h

/-! ### Helper lemmas about the aggregation primitives -/

theorem sumQty_nil (p : StockMovement → Bool) : sumQty [] p = 0 := rfl

theorem sumQty_append (l₁ l₂ : List StockMovement) (p : StockMovement → Bool) :
    sumQty (l₁ ++ l₂) p = sumQty l₁ p + sumQty l₂ p := by
  simp [sumQty, List.filter_append]

theorem sumQty_singleton (m : StockMovement) (p : StockMovement → Bool) :
    sumQty [m] p = if p m then m.quantity else 0 := by
  cases h : p m <;> simp [sumQty, List.filter, h]

theorem sumQty_congr {l : List StockMovement} {p q : StockMovement → Bool}
    (h : ∀ m ∈ l, p m = q m) : sumQty l p = sumQty l q := by
  unfold sumQty
  rw [List.filter_congr h]

theorem sumQty_cons (x : StockMovement) (xs : List StockMovement)
    (p : StockMovement → Bool) :
    sumQty (x :: xs) p = (if p x then x.quantity else 0) + sumQty xs p := by
  cases h : p x <;> simp [sumQty, List.filter_cons, h]

theorem sumQty_disjoint (l : List StockMovement) (p q : StockMovement → Bool)
    (h : ∀ m, ¬(p m = true ∧ q m = true)) :
    sumQty l (fun m => p m || q m) = sumQty l p + sumQty l q := by
  induction l with
  | nil => simp [sumQty]
  | cons x xs ih =>
    have hx := h x
    cases hp : p x with
    | true =>
      cases hq : q x with
      | true => exact absurd ⟨hp, hq⟩ hx
      | false =>
        simp [sumQty_cons, hp, hq, ih]
        try omega
    | false =>
      cases hq : q x with
      | true =>
        simp [sumQty_cons, hp, hq, ih]
        try omega
      | false =>
        simp [sumQty_cons, hp, hq, ih]
        try omega

theorem find?_updateFirst {α : Type} (l : List α) (p : α → Bool) (f : α → α)
    (hf : ∀ x, p x = true → p (f x) = true) :
    (updateFirst l p f).find? p = (l.find? p).map f := by
  induction l with
  | nil => rfl
  | cons x xs ih =>
    cases hp : p x with
    | true =>
      simp [updateFirst, hp, List.find?_cons_of_pos, hf x hp]
    | false =>
      simp [updateFirst, hp, List.find?_cons_of_neg, ih]

/-! ### C8: subscription lifecycle actions -/

/-- C8: on an existing subscription, `activate` sets status `active` with
`start_date = now` and `end_date = now + 30 days`; `renew` sets status
`active` and extends the existing `end_date` by exactly 30 days without
resetting `start_date`; `reactivate` sets status `active` and leaves
`end_date` (and `start_date`) unchanged. -/
theorem C8_subscription_lifecycle :
    (∀ db actor business_id now sub,
      actor.role = "superadmin" →
      db.subscriptions.find? (subForBiz business_id) = some sub →
      ∃ sub', (activate_subscription db actor business_id now).2.subscriptions.find?
          (subForBiz business_id) = some sub' ∧
        sub'.status = "active" ∧ sub'.start_date = now ∧
        sub'.end_date = some (now + thirtyDays)) ∧
    (∀ db actor business_id now sub e,
      actor.role = "superadmin" →
      db.subscriptions.find? (subForBiz business_id) = some sub →
      sub.end_date = some e →
      ∃ sub', (renew_subscription db actor business_id now).2.subscriptions.find?
          (subForBiz business_id) = some sub' ∧
        sub'.status = "active" ∧ sub'.start_date = sub.start_date ∧
        sub'.end_date = some (e + thirtyDays)) ∧
    (∀ db actor business_id now sub,
      actor.role = "superadmin" →
      db.subscriptions.find? (subForBiz business_id) = some sub →
      ∃ sub', (reactivate_account db actor business_id now).2.subscriptions.find?
          (subForBiz business_id) = some sub' ∧
        sub'.status = "active" ∧ sub'.start_date = sub.start_date ∧
        sub'.end_date = sub.end_date) := by
  refine ⟨?_, ?_, ?_⟩
  · intro db actor bid now sub hrole hfind
    unfold activate_subscription
    rw [hrole]
    simp only [beq_self_eq_true, if_true, hfind]
    rw [find?_updateFirst]
    · rw [hfind]
      exact ⟨_, rfl, rfl, rfl, rfl⟩
    · exact fun x hx => hx
  · intro db actor bid now sub e hrole hfind hend
    unfold renew_subscription
    rw [hrole]
    simp only [beq_self_eq_true, if_true, hfind, hend]
    rw [find?_updateFirst]
    · rw [hfind]
      exact ⟨_, rfl, rfl, rfl, rfl⟩
    · exact fun x hx => hx
  · intro db actor bid now sub hrole hfind
    unfold reactivate_account
    rw [hrole]
    simp only [beq_self_eq_true, if_true, hfind]
    rw [find?_updateFirst]
    · rw [hfind]
      exact ⟨_, rfl, rfl, rfl, rfl⟩
    · exact fun x hx => hx

/-- Witness for C8 at a concrete state: activating business 1's trial
subscription at time 1000 yields an active subscription running from 1000
to 1000 + 30 days. -/
theorem C8_subscription_lifecycle_witness :
    ∃ sub', (activate_subscription dbC8 saUser 1 1000).2.subscriptions.find?
        (subForBiz 1) = some sub' ∧
      sub'.status = "active" ∧ sub'.start_date = 1000 ∧
      sub'.end_date = some (1000 + thirtyDays) :=
  C8_subscription_lifecycle.1 dbC8 saUser 1 1000 subTrial1 rfl rfl

/-! ### C9: idempotent onboarding-event recording -/

/-- C9: under the unique constraint on `(business_id, event)`, calling
`record_onboarding_event` twice with the same pair leaves exactly one
stored row, and the second call is a no-op (the duplicate insert is
swallowed, never surfaced as an error — the embedded function is total). -/
theorem C9_record_event_idempotent (db : DB) (business_id : Nat) (event : String)
    (hu : eventsUnique db) :
    countEvents (record_onboarding_event (record_onboarding_event db business_id event)
      business_id event) business_id event = 1 ∧
    record_onboarding_event (record_onboarding_event db business_id event)
      business_id event = record_onboarding_event db business_id event := by
  have hcount := hu business_id event
  by_cases h : db.events.any
      (fun e => e.business_id == business_id && e.event == event) = true
  · have h1 : record_onboarding_event db business_id event = db := by
      simp [record_onboarding_event, h]
    rw [h1, h1]
    refine ⟨?_, rfl⟩
    rcases List.any_eq_true.mp h with ⟨x, hx, hpx⟩
    have hmem : x ∈ db.events.filter
        (fun e => e.business_id == business_id && e.event == event) :=
      List.mem_filter.mpr ⟨hx, hpx⟩
    have hpos : 0 < countEvents db business_id event :=
      List.length_pos.mpr (List.ne_nil_of_mem hmem)
    omega
  · have h' : db.events.any
        (fun e => e.business_id == business_id && e.event == event) = false :=
      eq_false_of_ne_true h
    have h1 : record_onboarding_event db business_id event =
        { db with events := db.events ++ [{ business_id := business_id, event := event }] } := by
      simp [record_onboarding_event, h']
    have hrow : ((({ business_id := business_id, event := event } : OnboardingEvent)).business_id
        == business_id && ({ business_id := business_id, event := event } :
          OnboardingEvent).event == event) = true := by simp
    have hany1 : ({ db with events := db.events ++
        [{ business_id := business_id, event := event }] } : DB).events.any
        (fun e => e.business_id == business_id && e.event == event) = true := by
      simp
    have h2 : record_onboarding_event { db with events := db.events ++
        [{ business_id := business_id, event := event }] } business_id event =
        { db with events := db.events ++ [{ business_id := business_id, event := event }] } := by
      simp [record_onboarding_event, hany1]
    rw [h1, h2]
    refine ⟨?_, rfl⟩
    have hzero : db.events.filter
        (fun e => e.business_id == business_id && e.event == event) = [] := by
      rw [List.filter_eq_nil_iff]
      intro a ha
      intro hpa
      exact h (List.any_eq_true.mpr ⟨a, ha, hpa⟩)
    simp [countEvents, List.filter_append, hzero]

/-- Witness for C9: recording the same event twice for business 1 on the
empty store leaves exactly one row and the second call changes nothing. -/
theorem C9_record_event_idempotent_witness :
    countEvents (record_onboarding_event (record_onboarding_event emptyDB 1 "install_app")
      1 "install_app") 1 "install_app" = 1 ∧
    record_onboarding_event (record_onboarding_event emptyDB 1 "install_app")
      1 "install_app" = record_onboarding_event emptyDB 1 "install_app" :=
  C9_record_event_idempotent emptyDB 1 "install_app" (fun _ _ => by simp [countEvents, emptyDB])

/-! ### C7: login-time subscription validation -/

/-- C7: for a login with valid credentials, a `superadmin` bypasses all
subscription checks; otherwise, with an existing subscription, the checks
run in order: `suspended` fails regardless of `end_date` (and persists
nothing); `trial` or `active` with `end_date < now` persists the
subscription as `expired` with `is_active = false` and fails; otherwise
the login succeeds. -/
theorem C7_login_subscription_checks :
    (∀ (verify : String → String → Bool) (db : DB) (username password : String)
        (now : Int) (u : User),
      db.users.find? (fun x => x.username == username) = some u →
      verify password u.password_hash = true →
      u.role = "superadmin" →
      (login_user verify db username password now).1 =
        LoginResult.okRedirect "/superadmin/admin_panel") ∧
    (∀ (verify : String → String → Bool) (db : DB) (username password : String)
        (now : Int) (u : User) (s : Subscription),
      db.users.find? (fun x => x.username == username) = some u →
      verify password u.password_hash = true →
      u.role ≠ "superadmin" →
      db.subscriptions.find? (subForUser u) = some s →
      s.status = "suspended" →
      login_user verify db username password now = (LoginResult.suspended, db)) ∧
    (∀ (verify : String → String → Bool) (db : DB) (username password : String)
        (now : Int) (u : User) (s : Subscription) (e : Int),
      db.users.find? (fun x => x.username == username) = some u →
      verify password u.password_hash = true →
      u.role ≠ "superadmin" →
      db.subscriptions.find? (subForUser u) = some s →
      (s.status = "trial" ∨ s.status = "active") →
      s.end_date = some e → e < now →
      ((login_user verify db username password now).1 = LoginResult.trialExpired ∨
        (login_user verify db username password now).1 = LoginResult.subscriptionExpired) ∧
      ∃ s', (login_user verify db username password now).2.subscriptions.find?
          (subForUser u) = some s' ∧
        s'.status = "expired" ∧ s'.is_active = false) ∧
    (∀ (verify : String → String → Bool) (db : DB) (username password : String)
        (now : Int) (u : User) (s : Subscription),
      db.users.find? (fun x => x.username == username) = some u →
      verify password u.password_hash = true →
      u.role ≠ "superadmin" →
      db.subscriptions.find? (subForUser u) = some s →
      s.status ≠ "suspended" →
      ((s.status = "trial" ∨ s.status = "active") →
        ∃ e, s.end_date = some e ∧ ¬ e < now) →
      (login_user verify db username password now).1 =
        LoginResult.okRedirect "/inventory/dashboard") := by
  refine ⟨?_, ?_, ?_, ?_⟩
  · intro verify db username password now u hu hv hrole
    unfold login_user
    rw [hu]
    simp only [hv, if_true, hrole, beq_self_eq_true]
  · intro verify db username password now u s hu hv hrole hs hst
    unfold login_user
    rw [hu]
    have hr : (u.role == "superadmin") = false := by
      simp [hrole]
    simp only [hv, if_true, hr, Bool.false_eq_true, if_false, hs, hst, beq_self_eq_true]
  · intro verify db username password now u s e hu hv hrole hs hst hend hlt
    have hr : (u.role == "superadmin") = false := by
      simp [hrole]
    rcases hst with hst | hst
    · have hns : (s.status == "suspended") = false := by simp [hst]
      have hres : login_user verify db username password now =
          (LoginResult.trialExpired,
           { db with subscriptions := expireFirst db.subscriptions (subForUser u) now }) := by
        unfold login_user
        rw [hu]
        simp only [hv, if_true, hr, Bool.false_eq_true, if_false, hs, hns, hst,
          beq_self_eq_true, hend, hlt]
        simp [hlt]
      rw [hres]
      refine ⟨Or.inl rfl, ?_⟩
      unfold expireFirst
      rw [find?_updateFirst]
      · rw [hs]
        exact ⟨_, rfl, rfl, rfl⟩
      · exact fun x hx => hx
    · have hns : (s.status == "suspended") = false := by simp [hst]
      have hnt : (s.status == "trial") = false := by simp [hst]
      have hres : login_user verify db username password now =
          (LoginResult.subscriptionExpired,
           { db with subscriptions := expireFirst db.subscriptions (subForUser u) now }) := by
        unfold login_user
        rw [hu]
        simp only [hv, if_true, hr, Bool.false_eq_true, if_false, hs, hns, hnt, hst,
          beq_self_eq_true, hend, hlt]
        simp [hlt]
      rw [hres]
      refine ⟨Or.inr rfl, ?_⟩
      unfold expireFirst
      rw [find?_updateFirst]
      · rw [hs]
        exact ⟨_, rfl, rfl, rfl⟩
      · exact fun x hx => hx
  · intro verify db username password now u s hu hv hrole hs hns hok
    have hr : (u.role == "superadmin") = false := by
      simp [hrole]
    have hnsb : (s.status == "suspended") = false := by simp [hns]
    unfold login_user
    rw [hu]
    by_cases ht : s.status = "trial"
    · rcases hok (Or.inl ht) with ⟨e, hend, hge⟩
      simp only [hv, if_true, hr, Bool.false_eq_true, if_false, hs, hnsb, ht,
        beq_self_eq_true, hend]
      simp [hge]
    · by_cases ha : s.status = "active"
      · rcases hok (Or.inr ha) with ⟨e, hend, hge⟩
        have hntb : (s.status == "trial") = false := by simp [ht]
        simp only [hv, if_true, hr, Bool.false_eq_true, if_false, hs, hnsb, hntb, ha,
          beq_self_eq_true, hend]
        simp [hge]
      · have hntb : (s.status == "trial") = false := by simp [ht]
        have hnab : (s.status == "active") = false := by simp [ha]
        simp only [hv, if_true, hr, Bool.false_eq_true, if_false, hs, hnsb, hntb, hnab]

/-- Witness for C7's lazy-expiry branch: logging the business-1 admin in at
time 200 against a trial that ended at time 100 fails and persists the
subscription as `expired`/inactive. -/
theorem C7_login_subscription_checks_witness :
    ((login_user verifyEq dbC7 "admin1" "pw" 200).1 = LoginResult.trialExpired ∨
      (login_user verifyEq dbC7 "admin1" "pw" 200).1 = LoginResult.subscriptionExpired) ∧
    ∃ s', (login_user verifyEq dbC7 "admin1" "pw" 200).2.subscriptions.find?
        (subForUser uAdmin1) = some s' ∧
      s'.status = "expired" ∧ s'.is_active = false :=
  C7_login_subscription_checks.2.2.1 verifyEq dbC7 "admin1" "pw" 200 uAdmin1 subTrial1
    100 rfl rfl (by decide) rfl (Or.inl rfl) rfl (by decide)

/-! ### C1, C2: ledger balance on writes -/

theorem userStockFilter_eq_tuple (u : User) (pid biz b : Nat)
    (hadm : (u.role == "admin") = false) (hbiz : u.business_id = some biz)
    (hbr : u.branch_id = some b) (m : StockMovement) :
    userStockFilter u pid m =
      (m.business_id == biz && m.branch_id == b && m.product_id == pid) := by
  unfold userStockFilter
  rw [hadm, hbiz, hbr]
  cases h1 : m.product_id == pid <;> cases h2 : m.business_id == biz <;>
    cases h3 : m.branch_id == b <;> simp_all

theorem userStockFilter_eq_biz (u : User) (pid biz : Nat)
    (hadm : (u.role == "admin") = true) (hbiz : u.business_id = some biz)
    (m : StockMovement) :
    userStockFilter u pid m = (m.business_id == biz && m.product_id == pid) := by
  unfold userStockFilter
  rw [hadm, hbiz]
  cases h1 : m.product_id == pid <;> cases h2 : m.business_id == biz <;> simp_all

/-- C1 counterexample: in `dbC1` all 10 units of product 1 sit at branch 1
of business 1 and staff 1 works at branch 2. The admin's `assign_stock` of
5 units is accepted (the balance check sums across the whole business) but
is written to branch 2, driving that tuple's balance from 0 to −5 < 0. -/
theorem C1_counterexample :
    (assign_stock dbC1 uAdmin1 1 1 5 none).1 = Except.ok () ∧
    tupleBalance dbC1 1 2 1 = 0 ∧
    tupleBalance (assign_stock dbC1 uAdmin1 1 1 5 none).2 1 2 1 = -5 :=
  ⟨rfl, rfl, rfl⟩

/-- C1 as amended: an accepted `assign_stock` by a branch-restricted
(non-admin) actor leaves the affected `(business, branch, product)` balance
≥ 0; an accepted `assign_stock` by an admin only leaves the business-wide
balance of the product ≥ 0 (the per-branch balance of the target branch
may go negative, see the counterexample); an accepted `restock_product`
never decreases any tuple balance. -/
theorem C1_amended_balance :
    (∀ (db : DB) (u : User) (product_id staff_id : Nat) (quantity : Int)
        (notes : Option String) (db' : DB) (biz b : Nat),
      u.role ≠ "admin" → u.business_id = some biz → u.branch_id = some b →
      assign_stock db u product_id staff_id quantity notes = (.ok (), db') →
      0 ≤ tupleBalance db' biz b product_id) ∧
    (∀ (db : DB) (u : User) (product_id staff_id : Nat) (quantity : Int)
        (notes : Option String) (db' : DB) (biz : Nat),
      u.role = "admin" → u.business_id = some biz →
      assign_stock db u product_id staff_id quantity notes = (.ok (), db') →
      0 ≤ bizBalance db' biz product_id) ∧
    (∀ (db : DB) (u : User) (product_id : Nat) (quantity : Int)
        (branch_id : Option Nat) (sup inv nts : Option String) (db' : DB) (biz b : Nat),
      restock_product db u product_id quantity branch_id sup inv nts = (.ok (), db') →
      tupleBalance db biz b product_id ≤ tupleBalance db' biz b product_id) := by
  refine ⟨?_, ?_, ?_⟩
  · intro db u product_id staff_id quantity notes db' biz b hna hbiz hbr h
    have hadm : (u.role == "admin") = false := by simp [hna]
    unfold assign_stock at h
    split at h
    · split at h
      · simp at h
      · rename_i hqpos
        split at h
        · simp at h
        · rename_i staff hstaff
          split at h
          · simp at h
          · rename_i p hprod
            split at h
            · simp at h
            · rename_i hstock
              split at h
              · simp at h
              · rename_i biz0 hbiz0
                have hbe : biz0 = biz := by
                  rw [hbiz] at hbiz0
                  exact (Option.some_inj.mp hbiz0).symm
                injection h with h1 h2
                subst h2
                have hpf := List.find?_some hstaff
                simp only [hadm, Bool.false_or, Bool.and_eq_true, beq_iff_eq] at hpf
                obtain ⟨⟨hsid, hsbiz⟩, hsbr⟩ := hpf
                rw [hbr] at hsbr
                have hsb : staff.branch_id = b := Option.some_inj.mp hsbr
                have hpre : sumQty db.movements (userStockFilter u product_id) =
                    sumQty db.movements (fun m =>
                      m.business_id == biz && m.branch_id == b &&
                        m.product_id == product_id) :=
                  sumQty_congr
                    (fun m _ => userStockFilter_eq_tuple u product_id biz b hadm hbiz hbr m)
                rw [hpre] at hstock
                unfold tupleBalance
                rw [show (({ db with movements := db.movements ++
                  [{ business_id := biz0, branch_id := staff.branch_id,
                     product_id := product_id, movement_type := "ISSUE",
                     quantity := -quantity, staff_id := some staff.id,
                     from_branch_id := none, notes := notes,
                     created_by := u.id }] } : DB)).movements
                  = db.movements ++
                  [{ business_id := biz0, branch_id := staff.branch_id,
                     product_id := product_id, movement_type := "ISSUE",
                     quantity := -quantity, staff_id := some staff.id,
                     from_branch_id := none, notes := notes,
                     created_by := u.id }] from rfl]
                rw [sumQty_append, sumQty_singleton]
                simp only [hbe, hsb, beq_self_eq_true, Bool.and_self, if_true]
                omega
    · simp at h
  · intro db u product_id staff_id quantity notes db' biz hadm hbiz h
    have hadmb : (u.role == "admin") = true := by simp [hadm]
    unfold assign_stock at h
    split at h
    · split at h
      · simp at h
      · rename_i hqpos
        split at h
        · simp at h
        · rename_i staff hstaff
          split at h
          · simp at h
          · rename_i p hprod
            split at h
            · simp at h
            · rename_i hstock
              split at h
              · simp at h
              · rename_i biz0 hbiz0
                have hbe : biz0 = biz := by
                  rw [hbiz] at hbiz0
                  exact (Option.some_inj.mp hbiz0).symm
                injection h with h1 h2
                subst h2
                have hpre : sumQty db.movements (userStockFilter u product_id) =
                    sumQty db.movements (fun m =>
                      m.business_id == biz && m.product_id == product_id) :=
                  sumQty_congr
                    (fun m _ => userStockFilter_eq_biz u product_id biz hadmb hbiz m)
                rw [hpre] at hstock
                unfold bizBalance
                rw [show (({ db with movements := db.movements ++
                  [{ business_id := biz0, branch_id := staff.branch_id,
                     product_id := product_id, movement_type := "ISSUE",
                     quantity := -quantity, staff_id := some staff.id,
                     from_branch_id := none, notes := notes,
                     created_by := u.id }] } : DB)).movements
                  = db.movements ++
                  [{ business_id := biz0, branch_id := staff.branch_id,
                     product_id := product_id, movement_type := "ISSUE",
                     quantity := -quantity, staff_id := some staff.id,
                     from_branch_id := none, notes := notes,
                     created_by := u.id }] from rfl]
                rw [sumQty_append, sumQty_singleton]
                simp only [hbe, beq_self_eq_true, Bool.and_self, if_true]
                omega
    · simp at h
  · intro db u product_id quantity branch_id sup inv nts db' biz b h
    unfold restock_product at h
    split at h
    · split at h
      · simp at h
      · rename_i hqpos
        split at h
        · simp at h
        · rename_i p hprod
          split at h
          · simp at h
          · rename_i b0 hbres
            split at h
            · simp at h
            · rename_i biz0 hbiz0
              injection h with h1 h2
              subst h2
              unfold tupleBalance
              rw [show (({ db with movements := db.movements ++
                [{ business_id := biz0, branch_id := b0, product_id := product_id,
                   movement_type := "IN", quantity := quantity, staff_id := none,
                   from_branch_id := none,
                   notes := some ("Supplier: " ++ sup.getD "" ++ " | Invoice: "
                     ++ inv.getD "" ++ " | " ++ nts.getD ""),
                   created_by := u.id }] } : DB)).movements
                = db.movements ++
                [{ business_id := biz0, branch_id := b0, product_id := product_id,
                   movement_type := "IN", quantity := quantity, staff_id := none,
                   from_branch_id := none,
                   notes := some ("Supplier: " ++ sup.getD "" ++ " | Invoice: "
                     ++ inv.getD "" ++ " | " ++ nts.getD ""),
                   created_by := u.id }] from rfl]
              rw [sumQty_append, sumQty_singleton]
              split
              · simp only []
                omega
              · omega
    · simp at h

/-- Witness for the amended C1: a storekeeper's accepted issue of 7 units
(after a manager restocked 10 at branch 1 of business 1) leaves the
affected tuple balance at 3 ≥ 0. -/
theorem C1_amended_balance_witness :
    0 ≤ tupleBalance
      (assign_stock (restock_product dbC2 uMgr1 1 10 none none none none).2
        uStore1 1 1 7 none).2 1 1 1 :=
  C1_amended_balance.1 (restock_product dbC2 uMgr1 1 10 none none none none).2
    uStore1 1 1 7 none
    (assign_stock (restock_product dbC2 uMgr1 1 10 none none none none).2
      uStore1 1 1 7 none).2 1 1 (by decide) rfl rfl rfl

/-- C2: an ISSUE whose quantity exceeds the aggregate balance visible to
the actor fails with "Not enough stock" and leaves the store completely
unchanged; concretely, from the empty ledger of `dbC2`, after IN 10 and
ISSUE 7 at branch 1 the stock is 3, and a further ISSUE 5 fails with
"Not enough stock" leaving the store (hence the stock of 3) unchanged. -/
theorem C2_insufficient_stock_rejected :
    (∀ (db : DB) (u : User) (product_id staff_id : Nat) (quantity : Int)
        (notes : Option String) (st : Staff) (p : Product),
      (u.role = "admin" ∨ u.role = "storekeeper") →
      0 < quantity →
      db.staffs.find? (fun s =>
        (s.id == staff_id && some s.business_id == u.business_id) &&
        (u.role == "admin" || some s.branch_id == u.branch_id)) = some st →
      db.products.find? (fun q =>
        q.id == product_id && some q.business_id == u.business_id) = some p →
      get_product_stock db u product_id < quantity →
      assign_stock db u product_id staff_id quantity notes =
        (.error (.http 400 "Not enough stock"), db)) ∧
    (get_product_stock
        (assign_stock (restock_product dbC2 uMgr1 1 10 none none none none).2
          uStore1 1 1 7 none).2 uStore1 1 = 3 ∧
      assign_stock
          (assign_stock (restock_product dbC2 uMgr1 1 10 none none none none).2
            uStore1 1 1 7 none).2 uStore1 1 1 5 none =
        (.error (.http 400 "Not enough stock"),
          (assign_stock (restock_product dbC2 uMgr1 1 10 none none none none).2
            uStore1 1 1 7 none).2)) := by
  refine ⟨?_, rfl, rfl⟩
  intro db u product_id staff_id quantity notes st p hrole hq hst hp hins
  have hrb : (u.role == "admin" || u.role == "storekeeper") = true := by
    rcases hrole with h | h <;> simp [h]
  have hq' : ¬ (quantity ≤ 0) := by omega
  have hins' : sumQty db.movements (userStockFilter u product_id) < quantity := hins
  unfold assign_stock
  rw [hrb]
  simp only [if_true, hst, hp]
  rw [if_neg hq', if_pos hins']

/-- Witness for C2's general part: the scenario's third call — ISSUE 5
against a remaining stock of 3 — is rejected with the store unchanged. -/
theorem C2_insufficient_stock_rejected_witness :
    assign_stock
        (assign_stock (restock_product dbC2 uMgr1 1 10 none none none none).2
          uStore1 1 1 7 none).2 uStore1 1 1 5 none =
      (.error (.http 400 "Not enough stock"),
        (assign_stock (restock_product dbC2 uMgr1 1 10 none none none none).2
          uStore1 1 1 7 none).2) :=
  C2_insufficient_stock_rejected.1
    (assign_stock (restock_product dbC2 uMgr1 1 10 none none none none).2
      uStore1 1 1 7 none).2 uStore1 1 1 5 none staffBr1 prod1
    (Or.inr rfl) (by decide) rfl rfl (by decide)

/-! ### C4: the ledger as (not quite) the only stock store -/

theorem record_onboarding_event_movements (db : DB) (bid : Nat) (ev : String) :
    (record_onboarding_event db bid ev).movements = db.movements := by
  unfold record_onboarding_event
  split <;> rfl

theorem update_stock_movements (db : DB) (u : User) (pid : Nat) (d : UpdateData) :
    ((update_stock db u pid d).2).movements = db.movements := by
  unfold update_stock
  simp only []
  repeat' split
  all_goals rfl

theorem add_product_movements (db : DB) (u : User) (name : String)
    (price bp q : Int) : ((add_product db u name price bp q).2).movements = db.movements := by
  unfold add_product
  simp only []
  repeat' split
  all_goals first
    | rfl
    | (rw [record_onboarding_event_movements])

theorem onboarding_status_movements (db : DB) (bid : Nat) :
    ((onboarding_status db bid).2).movements = db.movements := by
  unfold onboarding_status
  simp only []
  repeat' split
  all_goals first
    | rfl
    | (rw [record_onboarding_event_movements])

theorem login_user_movements (verify : String → String → Bool) (db : DB)
    (un pw : String) (now : Int) :
    ((login_user verify db un pw now).2).movements = db.movements := by
  unfold login_user
  repeat' split
  all_goals rfl

theorem activate_subscription_movements (db : DB) (actor : User) (bid : Nat) (now : Int) :
    ((activate_subscription db actor bid now).2).movements = db.movements := by
  unfold activate_subscription
  repeat' split
  all_goals rfl

theorem renew_subscription_movements (db : DB) (actor : User) (bid : Nat) (now : Int) :
    ((renew_subscription db actor bid now).2).movements = db.movements := by
  unfold renew_subscription
  repeat' split
  all_goals rfl

theorem reactivate_account_movements (db : DB) (actor : User) (bid : Nat) (now : Int) :
    ((reactivate_account db actor bid now).2).movements = db.movements := by
  unfold reactivate_account
  repeat' split
  all_goals rfl

/-- C4 counterexample: `update_stock` stores a per-product stock quantity
outside the ledger — it sets `Product.quantity` to 42 while the ledger sum
for the product is 0 — so the data model does carry a denormalized stock
column that an operation maintains, refuting the claim as stated. -/
theorem C4_counterexample :
    (update_stock dbC4 uAdmin1 1 ⟨some 42, none, none⟩).1 =
      Except.ok "Product updated successfully" ∧
    ((update_stock dbC4 uAdmin1 1 ⟨some 42, none, none⟩).2.products.find?
      (fun p => p.id == 1)).map Product.quantity = some 42 ∧
    get_product_stock (update_stock dbC4 uAdmin1 1 ⟨some 42, none, none⟩).2 uAdmin1 1 = 0 ∧
    ((dbC4.products.find? (fun p => p.id == 1)).map Product.quantity = some 0) :=
  ⟨rfl, rfl, rfl, rfl⟩

/-- C4 as amended: `getStock` (`get_product_stock`) is derived solely from
the `StockMovement` rows — it depends on no other table, and every embedded
operation other than the two ledger appends (in particular `update_stock`,
which does maintain the stored `Product.quantity` column the claim denies
exists) leaves its value unchanged. -/
theorem C4_amended_ledger_sole_source :
    (∀ (db db' : DB) (u : User) (product_id : Nat),
      db'.movements = db.movements →
      get_product_stock db' u product_id = get_product_stock db u product_id) ∧
    (∀ (db : DB) (u v : User) (product_id pid : Nat) (data : UpdateData),
      get_product_stock (update_stock db u product_id data).2 v pid =
        get_product_stock db v pid) ∧
    (∀ (db : DB) (u v : User) (name : String) (price bp q : Int) (pid : Nat),
      get_product_stock (add_product db u name price bp q).2 v pid =
        get_product_stock db v pid) ∧
    (∀ (db : DB) (bid : Nat) (ev : String) (v : User) (pid : Nat),
      get_product_stock (record_onboarding_event db bid ev) v pid =
        get_product_stock db v pid) ∧
    (∀ (db : DB) (bid : Nat) (v : User) (pid : Nat),
      get_product_stock (onboarding_status db bid).2 v pid =
        get_product_stock db v pid) ∧
    (∀ (verify : String → String → Bool) (db : DB) (un pw : String)
        (now : Int) (v : User) (pid : Nat),
      get_product_stock (login_user verify db un pw now).2 v pid =
        get_product_stock db v pid) ∧
    (∀ (db : DB) (actor : User) (bid : Nat) (now : Int) (v : User) (pid : Nat),
      get_product_stock (activate_subscription db actor bid now).2 v pid =
          get_product_stock db v pid ∧
        get_product_stock (renew_subscription db actor bid now).2 v pid =
          get_product_stock db v pid ∧
        get_product_stock (reactivate_account db actor bid now).2 v pid =
          get_product_stock db v pid) := by
  have base : ∀ (db db' : DB) (u : User) (product_id : Nat),
      db'.movements = db.movements →
      get_product_stock db' u product_id = get_product_stock db u product_id := by
    intro db db' u pid h
    unfold get_product_stock
    rw [h]
  refine ⟨base, ?_, ?_, ?_, ?_, ?_, ?_⟩
  · intro db u v product_id pid data
    exact base db _ v pid (update_stock_movements db u product_id data)
  · intro db u v name price bp q pid
    exact base db _ v pid (add_product_movements db u name price bp q)
  · intro db bid ev v pid
    exact base db _ v pid (record_onboarding_event_movements db bid ev)
  · intro db bid v pid
    exact base db _ v pid (onboarding_status_movements db bid)
  · intro verify db un pw now v pid
    exact base db _ v pid (login_user_movements verify db un pw now)
  · intro db actor bid now v pid
    exact ⟨base db _ v pid (activate_subscription_movements db actor bid now),
      base db _ v pid (renew_subscription_movements db actor bid now),
      base db _ v pid (reactivate_account_movements db actor bid now)⟩

/-- Witness for the amended C4: updating product 1's stored quantity to 42
leaves `get_product_stock` on `dbC4` unchanged. -/
theorem C4_amended_ledger_sole_source_witness :
    get_product_stock (update_stock dbC4 uAdmin1 1 ⟨some 42, none, none⟩).2 uAdmin1 1 =
      get_product_stock dbC4 uAdmin1 1 :=
  C4_amended_ledger_sole_source.1 dbC4
    (update_stock dbC4 uAdmin1 1 ⟨some 42, none, none⟩).2 uAdmin1 1 rfl

/-! ### C5, C6: write-time referential and price validation -/

/-- C5 at the failing input: the admin of business 1 restocks product 1
into branch 2, which belongs to business 2 — the write is accepted and the
recorded movement of business 1 references another tenant's branch,
because `restock_product` never checks the supplied branch id against the
acting user's business. -/
theorem C5_crosstenant_branch_accepted :
    (restock_product dbC5 uAdmin1 1 5 (some 2) none none none).1 = Except.ok () ∧
    ((restock_product dbC5 uAdmin1 1 5 (some 2) none none none).2.movements.getLast?).map
      (fun m => (m.business_id, m.branch_id)) = some (1, 2) ∧
    dbC5.branches.find? (fun br => br.id == 2) =
      some { id := 2, business_id := 2, is_active := true } ∧
    uAdmin1.business_id = some 1 :=
  ⟨rfl, rfl, rfl, rfl⟩

/-- C6 at the failing input: `add_product` with selling price 5 and buying
price 10 succeeds and stores `price = 5 < buying_price = 10`, because the
model constructor assigns `price` before `buying_price`, so the
`validate_price` hook runs while `buying_price` is still `None` — although
the validator itself (last conjunct) rejects exactly this pair. -/
theorem C6_price_validator_bypassed :
    (add_product emptyDB uAdmin1 "Widget" 5 10 0).1 = Except.ok 1 ∧
    ((add_product emptyDB uAdmin1 "Widget" 5 10 0).2.products.find?
      (fun p => p.name == "Widget")).map (fun p => (p.price, p.buying_price)) =
      some (some 5, some 10) ∧
    (5 : Int) < 10 ∧
    validate_price (some 10) (some 5) = Except.error ApiError.pyValueError :=
  ⟨rfl, rfl, by decide, rfl⟩

/-! ### C3: scoped stock reads -/

theorem list_sum_map_add {α : Type} (l : List α) (f g : α → Int) :
    (l.map (fun x => f x + g x)).sum = (l.map f).sum + (l.map g).sum := by
  induction l with
  | nil => simp
  | cons x xs ih =>
    simp [ih]
    ring

theorem sum_map_zero {α : Type} (l : List α) :
    (l.map (fun _ => (0 : Int))).sum = 0 := by
  induction l <;> simp [*]

theorem sum_if_not_mem (bs : List Nat) (x : Nat) (q : Int) (hmem : x ∉ bs) :
    (bs.map (fun b => if x == b then q else 0)).sum = 0 := by
  induction bs with
  | nil => rfl
  | cons b bs' ih =>
    have hxb : x ≠ b := by
      intro he
      exact hmem (he ▸ List.mem_cons_self b bs')
    simp only [List.map_cons, List.sum_cons]
    rw [if_neg (by simpa using hxb)]
    rw [ih (fun h => hmem (List.mem_cons_of_mem b h))]
    ring

theorem sum_if_mem (bs : List Nat) (x : Nat) (q : Int) (hnd : bs.Nodup)
    (hmem : x ∈ bs) :
    (bs.map (fun b => if x == b then q else 0)).sum = q := by
  induction bs with
  | nil => cases hmem
  | cons b bs' ih =>
    obtain ⟨hnotin, hnd'⟩ := List.nodup_cons.mp hnd
    rcases List.mem_cons.mp hmem with hb | hb'
    · subst hb
      simp only [List.map_cons, List.sum_cons]
      rw [if_pos (by simp)]
      rw [sum_if_not_mem bs' x q hnotin]
      ring
    · have hxb : x ≠ b := by
        intro he
        exact hnotin (he ▸ hb')
      simp only [List.map_cons, List.sum_cons]
      rw [if_neg (by simpa using hxb)]
      rw [ih hnd' hb']
      ring

theorem sum_if_branch (m : StockMovement) (biz pid : Nat) (bs : List Nat)
    (hnd : bs.Nodup)
    (hcov : (m.business_id == biz && m.product_id == pid) = true → m.branch_id ∈ bs) :
    (bs.map (fun b =>
      if (m.business_id == biz && m.branch_id == b && m.product_id == pid) = true
      then m.quantity else 0)).sum =
      if (m.business_id == biz && m.product_id == pid) = true then m.quantity else 0 := by
  by_cases hP : (m.business_id == biz && m.product_id == pid) = true
  · obtain ⟨hbiz, hpid⟩ := Bool.and_eq_true_iff.mp hP
    have hmap : (bs.map (fun b =>
        if (m.business_id == biz && m.branch_id == b && m.product_id == pid) = true
        then m.quantity else 0)) =
        bs.map (fun b => if m.branch_id == b then m.quantity else 0) := by
      apply List.map_congr_left
      intro b _
      rw [hbiz, hpid]
      simp
    rw [hmap, sum_if_mem bs m.branch_id m.quantity hnd (hcov hP), if_pos hP]
  · have hmap : (bs.map (fun b =>
        if (m.business_id == biz && m.branch_id == b && m.product_id == pid) = true
        then m.quantity else 0)) = bs.map (fun _ => (0 : Int)) := by
      apply List.map_congr_left
      intro b _
      rw [if_neg]
      intro hT
      apply hP
      obtain ⟨h12, h3⟩ := Bool.and_eq_true_iff.mp hT
      obtain ⟨h1, h2⟩ := Bool.and_eq_true_iff.mp h12
      rw [h1, h3]
      rfl
    rw [hmap, sum_map_zero, if_neg hP]

theorem sumQty_partition (l : List StockMovement) (biz pid : Nat) (bs : List Nat)
    (hnd : bs.Nodup) :
    (∀ m ∈ l, (m.business_id == biz && m.product_id == pid) = true → m.branch_id ∈ bs) →
    sumQty l (fun m => m.business_id == biz && m.product_id == pid) =
      (bs.map (fun b => sumQty l
        (fun m => m.business_id == biz && m.branch_id == b && m.product_id == pid))).sum := by
  induction l with
  | nil =>
    intro _
    rw [sumQty_nil]
    rw [show (bs.map fun b => sumQty []
      (fun m => m.business_id == biz && m.branch_id == b && m.product_id == pid)) =
      bs.map (fun _ => (0 : Int)) from List.map_congr_left (fun b _ => rfl)]
    rw [sum_map_zero]
  | cons m l ih =>
    intro hcov
    rw [sumQty_cons]
    rw [show (bs.map fun b => sumQty (m :: l)
      (fun m => m.business_id == biz && m.branch_id == b && m.product_id == pid)) =
      bs.map (fun b =>
        (if (m.business_id == biz && m.branch_id == b && m.product_id == pid) = true
          then m.quantity else 0) +
        sumQty l (fun m => m.business_id == biz && m.branch_id == b &&
          m.product_id == pid)) from
      List.map_congr_left (fun b _ => sumQty_cons m l _)]
    rw [list_sum_map_add]
    rw [sum_if_branch m biz pid bs hnd (fun h => hcov m (List.mem_cons_self m l) h)]
    rw [ih (fun m' hm' h => hcov m' (List.mem_cons_of_mem m hm') h)]

/-- C3: `get_product_stock` returns exactly the sum of quantities of the
movements matching the business — the actor's own branch only for a
non-admin, all branches for an admin (`specStock` is the spec's wording of
that aggregate, 0 when nothing matches); a non-admin's result ignores any
movement of a different branch; and an admin's result equals the sum of
the per-branch balances over any duplicate-free cover of the branches. -/
theorem C3_scoped_stock_read :
    (∀ (db : DB) (u : User) (product_id : Nat),
      get_product_stock db u product_id = specStock db u product_id) ∧
    (∀ (db : DB) (u : User) (product_id : Nat),
      (∀ m ∈ db.movements, userStockFilter u product_id m = false) →
      get_product_stock db u product_id = 0) ∧
    (∀ (db : DB) (u : User) (product_id : Nat) (m : StockMovement) (b : Nat),
      u.role ≠ "admin" → u.branch_id = some b → m.branch_id ≠ b →
      get_product_stock { db with movements := m :: db.movements } u product_id =
        get_product_stock db u product_id) ∧
    (∀ (db : DB) (u : User) (product_id biz : Nat) (bs : List Nat),
      u.role = "admin" → u.business_id = some biz → bs.Nodup →
      (∀ m ∈ db.movements, m.business_id = biz → m.product_id = product_id →
        m.branch_id ∈ bs) →
      get_product_stock db u product_id =
        (bs.map (fun b => tupleBalance db biz b product_id)).sum) := by
  refine ⟨?_, ?_, ?_, ?_⟩
  · intro db u product_id
    unfold get_product_stock specStock
    rw [show ((db.movements.filter (fun m =>
        some m.business_id == u.business_id && m.product_id == product_id &&
        (u.role == "admin" || some m.branch_id == u.branch_id))).map
      (fun m => m.quantity)).sum = sumQty db.movements (fun m =>
        some m.business_id == u.business_id && m.product_id == product_id &&
        (u.role == "admin" || some m.branch_id == u.branch_id)) from rfl]
    apply sumQty_congr
    intro m _
    unfold userStockFilter
    cases h1 : m.product_id == product_id <;>
      cases h2 : some m.business_id == u.business_id <;> simp [h1, h2]
  · intro db u product_id h
    unfold get_product_stock sumQty
    rw [List.filter_eq_nil_iff.mpr (fun m hm => by rw [h m hm]; simp)]
    rfl
  · intro db u product_id m b hna hbr hne
    have hadm : (u.role == "admin") = false := by simp [hna]
    unfold get_product_stock
    rw [show (({ db with movements := m :: db.movements } : DB)).movements =
      m :: db.movements from rfl]
    rw [sumQty_cons]
    have hf : userStockFilter u product_id m = false := by
      unfold userStockFilter
      rw [hadm, hbr]
      rw [show (some m.branch_id == some b) = false by simp [hne]]
      simp
    rw [hf]
    simp
  · intro db u product_id biz bs hadm hbiz hnd hcov
    have hadmb : (u.role == "admin") = true := by simp [hadm]
    unfold get_product_stock
    rw [sumQty_congr (fun m _ => userStockFilter_eq_biz u product_id biz hadmb hbiz m)]
    rw [sumQty_partition db.movements biz product_id bs hnd (fun m hm hB => by
      obtain ⟨h1, h2⟩ := Bool.and_eq_true_iff.mp hB
      exact hcov m hm (by simpa using h1) (by simpa using h2))]
    rfl

/-- Witness for C3's branch-isolation part: prepending a movement at
branch 2 leaves the branch-1 storekeeper's stock reading on `dbC1`
unchanged. -/
theorem C3_scoped_stock_read_witness :
    get_product_stock { dbC1 with movements :=
        ({ business_id := 1, branch_id := 2, product_id := 1, movement_type := "IN",
           quantity := 10, staff_id := none, from_branch_id := none, notes := none,
           created_by := 10 } : StockMovement) :: dbC1.movements } uStore1 1 =
      get_product_stock dbC1 uStore1 1 :=
  C3_scoped_stock_read.2.2.1 dbC1 uStore1 1
    { business_id := 1, branch_id := 2, product_id := 1, movement_type := "IN",
      quantity := 10, staff_id := none, from_branch_id := none, notes := none,
      created_by := 10 } 1 (by decide) rfl (by decide)

/-! ### C10: onboarding status and the one-shot activation prompt -/

theorem oNext_cases (s : Bool × Bool × Bool × Bool) (a : String)
    (h : next_action_from_steps s = some a) :
    a = "add_product" ∨ a = "sell_product" ∨ a = "view_report" ∨ a = "install_app" := by
  obtain ⟨b1, b2, b3, b4⟩ := s
  cases b1 <;> cases b2 <;> cases b3 <;> cases b4 <;>
    simp_all [next_action_from_steps]

theorem oNext_completed_le (s : Bool × Bool × Bool × Bool) (a : String)
    (h : next_action_from_steps s = some a) : onbCompleted s ≤ 3 := by
  obtain ⟨b1, b2, b3, b4⟩ := s
  cases b1 <;> cases b2 <;> cases b3 <;> cases b4 <;>
    simp_all [next_action_from_steps, onbCompleted]

theorem progress_lt_of (c : Nat) (h : c ≤ 3) : c * 100 / 4 < 100 := by omega

theorem hasEvent_record (db : DB) (bid : Nat) (ev : String) :
    hasEvent (record_onboarding_event db bid ev) bid ev = true := by
  unfold record_onboarding_event hasEvent
  split
  · rename_i h
    exact h
  · simp [List.any_append]

theorem onbSteps_record_sentinel (db : DB) (bid : Nat) (stage : String)
    (hst : stage = "add_product" ∨ stage = "sell_product" ∨
      stage = "view_report" ∨ stage = "install_app") :
    onbSteps (record_onboarding_event db bid ("activation_modal_shown:" ++ stage)) bid =
      onbSteps db bid := by
  unfold record_onboarding_event
  split
  · rfl
  · unfold onbSteps hasEvent
    rcases hst with h | h | h | h <;> subst h <;>
      simp [List.any_append]

theorem onboarding_status_next_action (db : DB) (bid : Nat) :
    (onboarding_status db bid).1.next_action =
      next_action_from_steps (onbSteps db bid) := by
  unfold onboarding_status
  simp only []
  repeat' split
  all_goals rfl

/-- C10: on a business with no products, orders or events the status call
returns all four steps false, progress 0, next action `add_product` and
shows the modal, recording the stage sentinel so that an immediate second
call for the same stage shows nothing; in general a `true` modal is always
accompanied by a durably recorded `activation_modal_shown:<stage>`
sentinel, an immediate repeat call never shows the modal again, and a
status whose next action has no recorded sentinel yet shows the modal
exactly once. -/
theorem C10_onboarding_one_shot_modal :
    ((onboarding_status emptyDB 1).1 =
        (⟨false, false, false, false, 0, true, some "add_product"⟩ : OnbStatus) ∧
      hasEvent (onboarding_status emptyDB 1).2 1 "activation_modal_shown:add_product" = true ∧
      (onboarding_status (onboarding_status emptyDB 1).2 1).1.show_activation_modal = false ∧
      (onboarding_status (onboarding_status emptyDB 1).2 1).1.next_action =
        some "add_product") ∧
    (∀ (db : DB) (bid : Nat),
      (onboarding_status db bid).1.show_activation_modal = true →
      ∃ stage, (onboarding_status db bid).1.next_action = some stage ∧
        hasEvent (onboarding_status db bid).2 bid
          ("activation_modal_shown:" ++ stage) = true) ∧
    (∀ (db : DB) (bid : Nat),
      (onboarding_status (onboarding_status db bid).2 bid).1.show_activation_modal
        = false) ∧
    (∀ (db : DB) (bid : Nat) (stage : String),
      (onboarding_status db bid).1.next_action = some stage →
      hasEvent db bid ("activation_modal_shown:" ++ stage) = false →
      (onboarding_status db bid).1.show_activation_modal = true) := by
  refine ⟨⟨rfl, rfl, rfl, rfl⟩, ?_, ?_, ?_⟩
  · intro db bid hmodal
    unfold onboarding_status at hmodal ⊢
    simp only [] at hmodal ⊢
    split at hmodal
    · rename_i stage heq
      rw [heq]
      try simp only []
      split at hmodal
      · rename_i hprog
        rw [if_pos hprog]
        split at hmodal
        · simp at hmodal
        · rename_i hshown
          rw [if_neg hshown]
          exact ⟨stage, rfl, hasEvent_record db bid _⟩
      · simp at hmodal
    · simp at hmodal
  · intro db bid
    cases hna : next_action_from_steps (onbSteps db bid) with
    | none =>
      have hfst : (onboarding_status db bid).2 = db := by
        unfold onboarding_status
        simp only []
        rw [hna]
      rw [hfst]
      unfold onboarding_status
      simp only []
      rw [hna]
    | some stage =>
      by_cases hprog : onbCompleted (onbSteps db bid) * 100 / 4 < 100
      · by_cases hshown : hasEvent db bid ("activation_modal_shown:" ++ stage) = true
        · have hfst : (onboarding_status db bid).2 = db := by
            unfold onboarding_status
            simp only []
            rw [hna]
            try simp only []
            rw [if_pos hprog, if_pos hshown]
          rw [hfst]
          unfold onboarding_status
          simp only []
          rw [hna]
          try simp only []
          rw [if_pos hprog, if_pos hshown]
        · have hst4 := oNext_cases _ _ hna
          have hfst : (onboarding_status db bid).2 =
              record_onboarding_event db bid ("activation_modal_shown:" ++ stage) := by
            unfold onboarding_status
            simp only []
            rw [hna]
            try simp only []
            rw [if_pos hprog, if_neg hshown]
          rw [hfst]
          have hsteps : onbSteps (record_onboarding_event db bid
              ("activation_modal_shown:" ++ stage)) bid = onbSteps db bid :=
            onbSteps_record_sentinel db bid stage hst4
          have hsent1 : hasEvent (record_onboarding_event db bid
              ("activation_modal_shown:" ++ stage)) bid
              ("activation_modal_shown:" ++ stage) = true := hasEvent_record db bid _
          unfold onboarding_status
          simp only []
          rw [hsteps, hna]
          try simp only []
          rw [if_pos hprog, if_pos hsent1]
      · have hfst : (onboarding_status db bid).2 = db := by
          unfold onboarding_status
          simp only []
          rw [hna]
          try simp only []
          rw [if_neg hprog]
        rw [hfst]
        unfold onboarding_status
        simp only []
        rw [hna]
        try simp only []
        rw [if_neg hprog]
  · intro db bid stage hnext hsent
    rw [onboarding_status_next_action] at hnext
    have hprog := progress_lt_of _ (oNext_completed_le _ _ hnext)
    unfold onboarding_status
    simp only []
    rw [hnext]
    try simp only []
    rw [if_pos hprog]
    rw [if_neg (by simp [hsent])]

/-- Witness for C10's one-shot rule: on the empty store (no sentinel yet)
the first status call for business 1 shows the activation modal. -/
theorem C10_onboarding_one_shot_modal_witness :
    (onboarding_status emptyDB 1).1.show_activation_modal = true :=
  C10_onboarding_one_shot_modal.2.2.2 emptyDB 1 "add_product" rfl rfl
